import Mathlib

/-!
Shallow embedding of src/pipedream.py (class PipedreamClient): the OAuth
client-credentials token cache of _get_access_token, the response handling of
the generic dispatcher _request, the shared response handling of the four
delete methods, and the validation plus request-building part of the resource
methods.  Conventions: wall-clock times are integers, parsed JSON bodies are
an inductive value type, and every Python raise site of the source has its own
constructor in the error type.
-/

namespace Pipedream

/-- JSON values as produced by response.json(). -/
inductive Json where
  | null
  | bool (b : Bool)
  | num (n : Int)
  | str (s : String)
  | arr (elems : List Json)
  | obj (fields : List (String × Json))

/-- Query-parameter values: the source places strings and ints into params. -/
inductive PVal where
  | s (v : String)
  | i (v : Int)
  deriving DecidableEq

/-- Exceptions the client can raise, one constructor per raise site family of
src/pipedream.py. -/
inductive PdError where
  /-- ValueError: caller-input validation failure, with the raise message. -/
  | valueError (msg : String)
  /-- PipedreamAuthError raised when a 200 token response carries no truthy
  access_token (line 245). -/
  | authMissingToken
  /-- PipedreamAuthError raised on a non-200 token response, carrying status
  and body text (lines 249-251). -/
  | authBadStatus (status : Nat) (bodyText : String)
  /-- PipedreamAuthError wrapping an aiohttp.ClientError during token
  retrieval (line 253). -/
  | authNetwork (msg : String)
  /-- PipedreamApiError raised by _request on a non-2xx status, carrying the
  status and the interpolated message value: the error.message field of the
  parsed body when present, else the whole parsed body (lines 285-287). -/
  | apiBadStatus (status : Nat) (detail : Json)
  /-- PipedreamApiError wrapping an aiohttp.ClientError during an API request
  (lines 288-289 and the matching lines of the delete methods). -/
  | apiNetwork (msg : String)
  /-- PipedreamApiError raised by _request when response.json() raises
  ValueError, carrying status and body text (lines 290-292). -/
  | apiDecodeFail (status : Nat) (bodyText : String)
  /-- PipedreamApiError raised by the delete methods on a non-204 status whose
  body parsed as JSON, carrying the status and the extracted message value. -/
  | apiDeleteError (status : Nat) (detail : Json)
  /-- PipedreamApiError raised by the delete methods on a non-204 status whose
  body did not parse as JSON, carrying the status and the body text. -/
  | apiDeleteErrorText (status : Nat) (bodyText : String)
  /-- Python AttributeError escaping uncaught when a parsed error body, or its
  error field, is not a dict (the .get chains of lines 286, 493, 540, ...). -/
  | attributeError
  /-- Python ValueError escaping uncaught from _get_access_token when a
  200 token response body fails JSON decoding (line 239 has no such except). -/
  | uncaughtValueError

/-- Whether the error is an instance of PipedreamApiError. -/
def PdError.isApiError : PdError → Bool
  | .apiBadStatus _ _ | .apiNetwork _ | .apiDecodeFail _ _
  | .apiDeleteError _ _ | .apiDeleteErrorText _ _ => true
  | _ => false

/-- Whether the error is an instance of PipedreamAuthError. -/
def PdError.isAuthError : PdError → Bool
  | .authMissingToken | .authBadStatus _ _ | .authNetwork _ => true
  | _ => false

/-- Whether a call outcome is a raised ValueError (the validation failure of
the source; the equivalent of the specification term ValidationError). -/
def isValidationError {α : Type} : Except PdError α → Bool
  | .error (.valueError _) => true
  | _ => false

/-- Python dict lookup on a parsed JSON object (parsed JSON keys are unique,
so first match suffices). -/
def lookupField : List (String × Json) → String → Option Json
  | [], _ => none
  | (k, v) :: rest, key => if k = key then some v else lookupField rest key

/-- Models the chained Python expression taking data.get of the error key and
then .get of the message key with the whole data as fallback, as written in
_request line 286 and in each delete method.  Returns none exactly when the
Python expression raises AttributeError: data itself, or its error value, is
not a dict.  The delete methods pass str of data as the fallback rather than
data, which renders identically inside the raised f-string message. -/
def errorDetail : Json → Option Json
  | .obj fields =>
    match lookupField fields "error" with
    | none => some (.obj fields)
    | some (.obj efields) => some ((lookupField efields "message").getD (.obj fields))
    | some _ => none
  | _ => none

/-- Outcome of the HTTP exchange observed inside _request.  A response carries
its status, its body parsed as JSON when decoding succeeds (none models the
ValueError branch of line 290), and its raw text.  netError models
aiohttp.ClientError, which also covers the ContentTypeError aiohttp raises for
a non-JSON content type. -/
inductive HttpOutcome where
  | response (status : Nat) (jsonBody : Option Json) (text : String)
  | netError (msg : String)

/-- Response handling of PipedreamClient._request (lines 277-292): the body is
parsed first, a 2xx status returns it, any other status raises
PipedreamApiError with the status and a best-effort message. -/
def requestHandler : HttpOutcome → Except PdError Json
  | .netError m => .error (.apiNetwork m)
  | .response status none text => .error (.apiDecodeFail status text)
  | .response status (some data) _ =>
    if 200 ≤ status ∧ status < 300 then .ok data
    else
      match errorDetail data with
      | some d => .error (.apiBadStatus status d)
      | none => .error .attributeError

/-- Outcome of the HTTP exchange in the delete methods; jsonBody = none models
the caught ContentTypeError or ValueError from response.json(). -/
inductive DeleteOutcome where
  | response (status : Nat) (jsonBody : Option Json) (text : String)
  | netError (msg : String)

/-- Shared response handling of delete_account (lines 485-500),
delete_accounts_by_app, delete_external_user and delete_deployed_trigger: the
source repeats this block verbatim in each of the four methods. -/
def deleteResponseHandler : DeleteOutcome → Except PdError Unit
  | .netError m => .error (.apiNetwork m)
  | .response status jsonBody text =>
    if status = 204 then .ok ()
    else
      match jsonBody with
      | some data =>
        match errorDetail data with
        | some d => .error (.apiDeleteError status d)
        | none => .error .attributeError
      | none => .error (.apiDeleteErrorText status text)

/-- Client instance state: the credentials fixed at construction plus the
token cache fields self._access_token and self._token_expires_at. -/
structure ClientState where
  clientId : String
  clientSecret : String
  projectId : String
  environment : Option String
  accessToken : Option String
  tokenExpiresAt : Int

/-- PipedreamClient.__init__ (lines 178-207): the credential check is its
first statement, before the session is created or any field is assigned, so a
validation failure produces no client object. -/
def initClient (clientId clientSecret projectId : String)
    (environment : Option String) : Except PdError ClientState :=
  if clientId = "" ∨ clientSecret = "" ∨ projectId = "" then
    .error (.valueError "client_id, client_secret, and project_id are required.")
  else
    .ok { clientId := clientId, clientSecret := clientSecret,
          projectId := projectId, environment := environment,
          accessToken := none, tokenExpiresAt := 0 }

/-- Python truthiness of an optional string: None and the empty string are falsy. -/
def truthyOptStr : Option String → Bool
  | none => false
  | some s => decide (s ≠ "")

/-- Python truthiness of an optional int: None and 0 are falsy. -/
def truthyOptInt : Option Int → Bool
  | none => false
  | some n => decide (n ≠ 0)

/-- Outcome of the POST to the token endpoint inside _get_access_token.  For a
parsed response the fields hold the .get values of the access_token key (none
when the key is absent; token values are strings in this protocol) and of the
expires_in key, plus the raw body text.  malformedJson models a body on which
response.json() raises ValueError; for a non-200 status the body is never
parsed, so only status and text matter there.  netError models
aiohttp.ClientError. -/
inductive TokenOutcome where
  | response (status : Nat) (accessToken : Option String)
      (expiresIn : Option Int) (text : String)
  | malformedJson (status : Nat) (text : String)
  | netError (msg : String)

/-- Result of one _get_access_token call: the returned token or raised error,
the client state afterwards, and whether a POST to the token endpoint
occurred (false means the cached token was served with no network call). -/
structure TokenCallResult where
  result : Except PdError String
  state : ClientState
  fetched : Bool

/-- Cache test of _get_access_token line 225: a truthy cached token whose
stored expiry lies strictly in the future. -/
def cacheHit (st : ClientState) (now : Int) : Bool :=
  truthyOptStr st.accessToken && decide (now < st.tokenExpiresAt)

/-- Fetch path of _get_access_token (lines 228-253).  On a 200 response the
token and the expiry now + expires_in - 60 (expires_in defaulting to 3600)
are stored first, and only then does the truthiness check of line 244 decide
between returning the token and raising. -/
def fetchToken (st : ClientState) (now : Int) : TokenOutcome → TokenCallResult
  | .netError m => ⟨.error (.authNetwork m), st, true⟩
  | .malformedJson status text =>
    if status = 200 then ⟨.error .uncaughtValueError, st, true⟩
    else ⟨.error (.authBadStatus status text), st, true⟩
  | .response status tok expiresIn text =>
    if status = 200 then
      let st1 := { st with accessToken := tok,
                           tokenExpiresAt := now + expiresIn.getD 3600 - 60 }
      match tok with
      | some t => if t = "" then ⟨.error .authMissingToken, st1, true⟩
                  else ⟨.ok t, st1, true⟩
      | none => ⟨.error .authMissingToken, st1, true⟩
    else ⟨.error (.authBadStatus status text), st, true⟩

/-- PipedreamClient._get_access_token (lines 220-253), with both time.time()
reads of one call modelled as the same instant now, and the endpoint outcome
passed as an oracle that is only consulted when a fetch happens. -/
def getAccessToken (st : ClientState) (now : Int) (fetch : TokenOutcome) :
    TokenCallResult :=
  if cacheHit st now then ⟨.ok (st.accessToken.getD ""), st, false⟩
  else fetchToken st now fetch

/-- One token-getter call of a trace: its wall-clock time and what the token
endpoint would answer if consulted. -/
structure TokenCall where
  now : Int
  outcome : TokenOutcome

/-- Runs a sequence of _get_access_token calls, threading the client state,
and collects the outcomes. -/
def runCalls : ClientState → List TokenCall → List (Except PdError String) × ClientState
  | st, [] => ([], st)
  | st, c :: rest =>
    let r := getAccessToken st c.now c.outcome
    let p := runCalls r.state rest
    (r.result :: p.1, p.2)

/-- The string s was the access_token value of some 200 token response of the
trace. -/
def tokenFromTrace (calls : List TokenCall) (s : String) : Prop :=
  ∃ c ∈ calls, ∃ e t, c.outcome = TokenOutcome.response 200 (some s) e t

/-- One HTTP request as handed to the transport: method, path under the base
URL, query parameters in insertion order, and JSON body.  A resource method
that returns an error instead of a descriptor performed no network
activity. -/
structure RequestDescriptor where
  method : String
  path : String
  params : List (String × PVal)
  jsonBody : Option Json

/-- Models the source idiom adding params of key = v only when the optional
string v is truthy (dropped when None or empty). -/
def optParamStr (key : String) : Option String → List (String × PVal)
  | none => []
  | some s => if s = "" then [] else [(key, PVal.s s)]

/-- Models the source idiom adding params of key = v only when the optional
int v is truthy (dropped when None or 0). -/
def optParamInt (key : String) : Option Int → List (String × PVal)
  | none => []
  | some n => if n = 0 then [] else [(key, PVal.i n)]

/-- Models the source idiom adding a JSON payload field only when the optional
string value is truthy. -/
def optBodyStr (key : String) : Option String → List (String × Json)
  | none => []
  | some s => if s = "" then [] else [(key, Json.str s)]

/-- The valid_types list of get_components and get_component. -/
def validTypes : List String := ["triggers", "actions", "components"]

/-- PipedreamClient.create_connect_token (lines 295-346): request-building
part, up to the POST it hands to _request. -/
def createConnectToken (pid externalUserId : String)
    (allowedOrigins : Option (List String))
    (successRedirectUri errorRedirectUri webhookUri : Option String) :
    Except PdError RequestDescriptor :=
  if externalUserId = "" then
    .error (.valueError "external_user_id is required.")
  else
    .ok { method := "POST", path := "connect/" ++ pid ++ "/tokens",
          params := [],
          jsonBody := some (.obj
            ([("external_user_id", Json.str externalUserId)]
             ++ (match allowedOrigins with
                 | some os =>
                   if os.isEmpty then []
                   else [("allowed_origins", Json.arr (os.map Json.str))]
                 | none => [])
             ++ optBodyStr "success_redirect_uri" successRedirectUri
             ++ optBodyStr "error_redirect_uri" errorRedirectUri
             ++ optBodyStr "webhook_uri" webhookUri)) }

/-- PipedreamClient.get_accounts (lines 348-411): request-building part.  Each
optional filter is added only when truthy; include_credentials is serialized
as the lowercase string true when set. -/
def getAccounts (pid : String) (appFilter oauthAppId externalUserId : Option String)
    (includeCredentials : Bool) (limit : Option Int) (cursor : Option String) :
    Except PdError RequestDescriptor :=
  .ok { method := "GET", path := "connect/" ++ pid ++ "/accounts",
        params := optParamStr "app" appFilter
          ++ optParamStr "oauth_app_id" oauthAppId
          ++ optParamStr "external_user_id" externalUserId
          ++ (if includeCredentials then [("include_credentials", PVal.s "true")] else [])
          ++ optParamInt "limit" limit
          ++ optParamStr "cursor" cursor,
        jsonBody := none }

/-- PipedreamClient.get_account_by_id (lines 413-452): validation and
request-building part. -/
def getAccountById (pid accountId : String) (includeCredentials : Bool) :
    Except PdError RequestDescriptor :=
  if accountId = "" then
    .error (.valueError "account_id is required.")
  else
    .ok { method := "GET", path := "connect/" ++ pid ++ "/accounts/" ++ accountId,
          params := if includeCredentials then [("include_credentials", PVal.s "true")] else [],
          jsonBody := none }

/-- PipedreamClient.delete_account (lines 454-500): validation and
request-building part; its response goes through deleteResponseHandler. -/
def deleteAccountRequest (pid accountId : String) :
    Except PdError RequestDescriptor :=
  if accountId = "" then
    .error (.valueError "account_id is required.")
  else
    .ok { method := "DELETE", path := "connect/" ++ pid ++ "/accounts/" ++ accountId,
          params := [], jsonBody := none }

/-- PipedreamClient.delete_accounts_by_app (lines 502-547): validation and
request-building part; its response goes through deleteResponseHandler. -/
def deleteAccountsByAppRequest (pid appId : String) :
    Except PdError RequestDescriptor :=
  if appId = "" then
    .error (.valueError "app_id is required.")
  else
    .ok { method := "DELETE", path := "connect/" ++ pid ++ "/apps/" ++ appId ++ "/accounts",
          params := [], jsonBody := none }

/-- PipedreamClient.delete_external_user (lines 549-593): validation and
request-building part; its response goes through deleteResponseHandler. -/
def deleteExternalUserRequest (pid externalUserId : String) :
    Except PdError RequestDescriptor :=
  if externalUserId = "" then
    .error (.valueError "external_user_id is required.")
  else
    .ok { method := "DELETE", path := "connect/" ++ pid ++ "/users/" ++ externalUserId,
          params := [], jsonBody := none }

/-- PipedreamClient.get_components (lines 597-652): validation and
request-building part.  The invalid component_type message is abbreviated
here; the source f-string also quotes the type and lists valid_types. -/
def getComponents (pid componentType : String)
    (appFilter searchQuery : Option String)
    (limit : Option Int) (cursor : Option String) :
    Except PdError RequestDescriptor :=
  if componentType ∈ validTypes then
    .ok { method := "GET", path := "connect/" ++ pid ++ "/" ++ componentType,
          params := optParamStr "app" appFilter
            ++ optParamStr "q" searchQuery
            ++ optParamInt "limit" limit
            ++ optParamStr "cursor" cursor,
          jsonBody := none }
  else
    .error (.valueError ("Invalid component_type: " ++ componentType))

/-- PipedreamClient.get_component (lines 654-692): validation and
request-building part. -/
def getComponentRequest (pid componentType componentKey : String) :
    Except PdError RequestDescriptor :=
  if componentType ∈ validTypes then
    if componentKey = "" then
      .error (.valueError "component_key is required.")
    else
      .ok { method := "GET",
            path := "connect/" ++ pid ++ "/" ++ componentType ++ "/" ++ componentKey,
            params := [], jsonBody := none }
  else
    .error (.valueError ("Invalid component_type: " ++ componentType))

/-- PipedreamClient.deploy_trigger (lines 806-866): validation and
request-building part.  The required-arguments check comes first, then the
mutual-exclusion check of webhook_url and workflow_id, both before any network
activity. -/
def deployTrigger (pid triggerKey externalUserId : String)
    (configuredProps : List (String × Json))
    (webhookUrl workflowId dynamicPropsId : Option String) :
    Except PdError RequestDescriptor :=
  if triggerKey = "" ∨ externalUserId = "" then
    .error (.valueError "trigger_key and external_user_id are required.")
  else if truthyOptStr webhookUrl && truthyOptStr workflowId then
    .error (.valueError "Provide either webhook_url or workflow_id, not both.")
  else
    .ok { method := "POST", path := "connect/" ++ pid ++ "/triggers/deploy",
          params := [],
          jsonBody := some (.obj
            ([("id", Json.str triggerKey),
              ("external_user_id", Json.str externalUserId),
              ("configured_props", Json.obj configuredProps)]
             ++ optBodyStr "webhook_url" webhookUrl
             ++ optBodyStr "workflowId" workflowId
             ++ optBodyStr "dynamic_props_id" dynamicPropsId)) }

/-- PipedreamClient.get_deployed_triggers (lines 870-912): validation and
request-building part. -/
def getDeployedTriggers (pid externalUserId : String)
    (limit : Option Int) (cursor : Option String) :
    Except PdError RequestDescriptor :=
  if externalUserId = "" then
    .error (.valueError "external_user_id is required.")
  else
    .ok { method := "GET", path := "connect/" ++ pid ++ "/deployed-triggers",
          params := [("external_user_id", PVal.s externalUserId)]
            ++ optParamInt "limit" limit
            ++ optParamStr "cursor" cursor,
          jsonBody := none }

/-- PipedreamClient.delete_deployed_trigger (lines 949-999): validation and
request-building part; its response goes through deleteResponseHandler. -/
def deleteDeployedTriggerRequest (pid deployedComponentId externalUserId : String)
    (ignoreHookErrors : Bool) : Except PdError RequestDescriptor :=
  if deployedComponentId = "" ∨ externalUserId = "" then
    .error (.valueError "deployed_component_id and external_user_id are required.")
  else
    .ok { method := "DELETE",
          path := "connect/" ++ pid ++ "/deployed-triggers/" ++ deployedComponentId,
          params := [("external_user_id", PVal.s externalUserId)]
            ++ (if ignoreHookErrors then [("ignoreHookErrors", PVal.s "true")] else []),
          jsonBody := none }

/-- PipedreamClient.get_deployed_trigger_events (lines 1001-1036): validation
and request-building part.  Unlike the other listing methods, its limit is
guarded by an is-not-None test (line 1028), so a limit of 0 is sent. -/
def getDeployedTriggerEvents (pid deployedComponentId externalUserId : String)
    (limit : Option Int) : Except PdError RequestDescriptor :=
  if deployedComponentId = "" ∨ externalUserId = "" then
    .error (.valueError "deployed_component_id and external_user_id are required.")
  else
    .ok { method := "GET",
          path := "connect/" ++ pid ++ "/deployed-triggers/" ++ deployedComponentId ++ "/events",
          params := [("external_user_id", PVal.s externalUserId)]
            ++ (match limit with
                | some n => [("limit", PVal.i n)]
                | none => []),
          jsonBody := none }

/-! Helper lemmas about the token flow. -/

theorem getAccessToken_not_hit (st : ClientState) (now : Int) (f : TokenOutcome)
    (h : cacheHit st now = false) : getAccessToken st now f = fetchToken st now f := by
  simp [getAccessToken, h]

theorem getAccessToken_cached (st : ClientState) (now : Int) (tok : String) (f : TokenOutcome)
    (h1 : st.accessToken = some tok) (h2 : tok ≠ "") (h3 : now < st.tokenExpiresAt) :
    getAccessToken st now f = ⟨.ok tok, st, false⟩ := by
  have hc : cacheHit st now = true := by
    simp [cacheHit, h1, truthyOptStr, h2, h3]
  simp [getAccessToken, hc, h1]

theorem fetchToken_fetched (st : ClientState) (now : Int) (f : TokenOutcome) :
    (fetchToken st now f).fetched = true := by
  cases f with
  | netError m => rfl
  | malformedJson s t =>
    by_cases h : s = 200 <;> simp [fetchToken, h]
  | response s tok e t =>
    by_cases h : s = 200
    · subst h
      cases tok with
      | none => rfl
      | some tk => by_cases he : tk = "" <;> simp [fetchToken, he]
    · simp [fetchToken, h]

theorem fetchToken_non200 (st : ClientState) (now : Int) (s : Nat) (tok : Option String)
    (e : Option Int) (text : String) (hs : s ≠ 200) :
    fetchToken st now (.response s tok e text) = ⟨.error (.authBadStatus s text), st, true⟩ := by
  simp [fetchToken, hs]

theorem fetchToken_malformed_non200 (st : ClientState) (now : Int) (s : Nat)
    (text : String) (hs : s ≠ 200) :
    fetchToken st now (.malformedJson s text) = ⟨.error (.authBadStatus s text), st, true⟩ := by
  simp [fetchToken, hs]

theorem fetchToken_200_ok (st : ClientState) (now : Int) (tok : String)
    (e : Option Int) (text : String) (h : tok ≠ "") :
    fetchToken st now (.response 200 (some tok) e text)
      = ⟨.ok tok, { st with accessToken := some tok,
                            tokenExpiresAt := now + e.getD 3600 - 60 }, true⟩ := by
  simp [fetchToken, h]

theorem fetchToken_200_missing (st : ClientState) (now : Int) (e : Option Int) (text : String) :
    fetchToken st now (.response 200 none e text)
      = ⟨.error .authMissingToken,
         { st with accessToken := none, tokenExpiresAt := now + e.getD 3600 - 60 }, true⟩ := by
  simp [fetchToken]

theorem getAccessToken_ok_source (st : ClientState) (now : Int) (f : TokenOutcome) (s : String)
    (h : (getAccessToken st now f).result = .ok s) :
    s ≠ "" ∧ (st.accessToken = some s ∨ ∃ e t, f = TokenOutcome.response 200 (some s) e t) := by
  by_cases hc : cacheHit st now = true
  · cases hst : st.accessToken with
    | none => rw [cacheHit, hst] at hc; simp [truthyOptStr] at hc
    | some tok =>
      have htok : tok ≠ "" ∧ now < st.tokenExpiresAt := by
        rw [cacheHit, hst] at hc
        simpa [truthyOptStr] using hc
      rw [getAccessToken, if_pos hc, hst] at h
      simp only [Option.getD_some] at h
      have hts : tok = s := by simpa using h
      subst hts
      exact ⟨htok.1, .inl rfl⟩
  · have hc2 : cacheHit st now = false := by simpa using hc
    rw [getAccessToken_not_hit st now f hc2] at h
    cases f with
    | netError m => simp [fetchToken] at h
    | malformedJson s2 t =>
      by_cases h200 : s2 = 200 <;> simp [fetchToken, h200] at h
    | response s2 tok e t =>
      by_cases h200 : s2 = 200
      · subst h200
        cases tok with
        | none => rw [fetchToken_200_missing] at h; simp at h
        | some tk =>
          by_cases hemp : tk = ""
          · subst hemp; simp [fetchToken] at h
          · rw [fetchToken_200_ok st now tk e t hemp] at h
            have hts : tk = s := by simpa using h
            subst hts
            exact ⟨hemp, .inr ⟨e, t, rfl⟩⟩
      · rw [fetchToken_non200 st now s2 tok e t h200] at h; simp at h

theorem getAccessToken_state_source (st : ClientState) (now : Int) (f : TokenOutcome) :
    (getAccessToken st now f).state.accessToken = st.accessToken ∨
    ∃ tok e t, f = TokenOutcome.response 200 tok e t ∧
      (getAccessToken st now f).state.accessToken = tok := by
  by_cases hc : cacheHit st now = true
  · left; simp [getAccessToken, hc]
  · have hc2 : cacheHit st now = false := by simpa using hc
    rw [getAccessToken_not_hit st now f hc2]
    cases f with
    | netError m => left; rfl
    | malformedJson s2 t =>
      left; by_cases h200 : s2 = 200 <;> simp [fetchToken, h200]
    | response s2 tok e t =>
      by_cases h200 : s2 = 200
      · subst h200
        refine .inr ⟨tok, e, t, rfl, ?_⟩
        cases tok with
        | none => simp [fetchToken]
        | some tk => by_cases hemp : tk = "" <;> simp [fetchToken, hemp]
      · left; simp [fetchToken, h200]

theorem runCalls_ok_source :
    ∀ (calls : List TokenCall) (P : String → Prop) (st : ClientState),
      (∀ s, st.accessToken = some s → s ≠ "" → P s) →
      ∀ out ∈ (runCalls st calls).1, ∀ s, out = .ok s →
        s ≠ "" ∧ (P s ∨ tokenFromTrace calls s) := by
  intro calls
  induction calls with
  | nil =>
    intro P st _ out hout
    simp [runCalls] at hout
  | cons c rest ih =>
    intro P st hP out hout s hs
    subst hs
    simp only [runCalls, List.mem_cons] at hout
    rcases hout with h1 | h2
    · obtain ⟨hne, hsrc⟩ := getAccessToken_ok_source st c.now c.outcome s h1.symm
      refine ⟨hne, ?_⟩
      rcases hsrc with hcache | ⟨e, t, hf⟩
      · exact .inl (hP s hcache hne)
      · exact .inr ⟨c, List.mem_cons_self _ _, e, t, hf⟩
    · have hP2 : ∀ s2, (getAccessToken st c.now c.outcome).state.accessToken = some s2 →
          s2 ≠ "" → (P s2 ∨ ∃ e t, c.outcome = TokenOutcome.response 200 (some s2) e t) := by
        intro s2 h2s hne2
        rcases getAccessToken_state_source st c.now c.outcome with hsame | ⟨tok, e, t, hf, hst⟩
        · rw [hsame] at h2s
          exact .inl (hP s2 h2s hne2)
        · rw [hst] at h2s
          subst h2s
          exact .inr ⟨e, t, hf⟩
      obtain ⟨hne, hPor⟩ :=
        ih (fun s2 => P s2 ∨ ∃ e t, c.outcome = TokenOutcome.response 200 (some s2) e t)
          (getAccessToken st c.now c.outcome).state hP2 (.ok s) h2 s rfl
      refine ⟨hne, ?_⟩
      rcases hPor with (hp | ⟨e, t, hf⟩) | htr
      · exact .inl hp
      · exact .inr ⟨c, List.mem_cons_self _ _, e, t, hf⟩
      · obtain ⟨c2, hmem, e, t, hf⟩ := htr
        exact .inr ⟨c2, List.mem_cons_of_mem _ hmem, e, t, hf⟩

/-- C1: for every call to the token getter, a truthy cached token with the
current time strictly below the stored expiry is returned as is, with the
state unchanged and no network call; in every other situation a token fetch
occurs; a 200 fetch at time now with expires_in E stores the expiry
now + E - 60; consequently a token obtained with expires_in = 100 at time now
is served from cache for every call strictly before now + 40 and a refresh is
triggered for every call at or after now + 40. -/
theorem token_cache_policy :
    (∀ (st : ClientState) (now : Int) (tok : String) (f : TokenOutcome),
      st.accessToken = some tok → tok ≠ "" → now < st.tokenExpiresAt →
      getAccessToken st now f = ⟨.ok tok, st, false⟩)
  ∧ (∀ (st : ClientState) (now : Int) (f : TokenOutcome),
      cacheHit st now = false → (getAccessToken st now f).fetched = true)
  ∧ (∀ (st : ClientState) (now E : Int) (tok : Option String) (text : String),
      cacheHit st now = false →
      (getAccessToken st now (.response 200 tok (some E) text)).state.tokenExpiresAt
        = now + E - 60)
  ∧ (∀ (st : ClientState) (now : Int) (tok text : String),
      cacheHit st now = false → tok ≠ "" →
      (getAccessToken st now (.response 200 (some tok) (some 100) text)).result = .ok tok
      ∧ (∀ (now2 : Int) (f : TokenOutcome), now2 < now + 40 →
          getAccessToken
              (getAccessToken st now (.response 200 (some tok) (some 100) text)).state now2 f
            = ⟨.ok tok,
               (getAccessToken st now (.response 200 (some tok) (some 100) text)).state,
               false⟩)
      ∧ (∀ (now2 : Int) (f : TokenOutcome), now + 40 ≤ now2 →
          (getAccessToken
              (getAccessToken st now (.response 200 (some tok) (some 100) text)).state
              now2 f).fetched = true)) := by
  refine ⟨?_, ?_, ?_, ?_⟩
  · intro st now tok f h1 h2 h3
    exact getAccessToken_cached st now tok f h1 h2 h3
  · intro st now f h
    rw [getAccessToken_not_hit st now f h]
    exact fetchToken_fetched st now f
  · intro st now E tok text h
    rw [getAccessToken_not_hit _ _ _ h]
    cases tok with
    | none => rw [fetchToken_200_missing]; simp
    | some tk =>
      by_cases he : tk = ""
      · subst he; simp [fetchToken]
      · rw [fetchToken_200_ok st now tk (some E) text he]; simp
  · intro st now tok text h htok
    rw [getAccessToken_not_hit _ _ _ h, fetchToken_200_ok st now tok (some 100) text htok]
    refine ⟨rfl, ?_, ?_⟩
    · intro now2 f h2
      refine getAccessToken_cached _ now2 tok f rfl htok ?_
      show now2 < now + (some (100 : Int)).getD 3600 - 60
      simp only [Option.getD_some]
      omega
    · intro now2 f h2
      have hnohit : cacheHit
          ({ st with accessToken := some tok,
                     tokenExpiresAt := now + (some (100 : Int)).getD 3600 - 60 }) now2 = false := by
        simp [cacheHit, truthyOptStr]
        intro _
        omega
      rw [getAccessToken_not_hit _ _ _ hnohit]
      exact fetchToken_fetched _ _ _

/-- Witness for token_cache_policy at concrete inputs: a cached call at time
50 against expiry 100, a fetch of a fresh client, the stored expiry of a 200
response with expires_in 100 at time 7, and the cache window of a token
obtained at time 7 (served at 10, refreshed at 47). -/
theorem token_cache_policy_witness :
    getAccessToken ⟨"i", "s", "p", none, some "tok", 100⟩ 50 (.netError "x")
      = ⟨.ok "tok", ⟨"i", "s", "p", none, some "tok", 100⟩, false⟩
    ∧ (getAccessToken ⟨"i", "s", "p", none, none, 0⟩ 0 (.netError "x")).fetched = true
    ∧ (getAccessToken ⟨"i", "s", "p", none, none, 0⟩ 7
        (.response 200 (some "tok1") (some 100) "")).state.tokenExpiresAt = 7 + 100 - 60
    ∧ (getAccessToken ⟨"i", "s", "p", none, none, 0⟩ 7
        (.response 200 (some "tok1") (some 100) "")).result = .ok "tok1"
    ∧ getAccessToken
        (getAccessToken ⟨"i", "s", "p", none, none, 0⟩ 7
          (.response 200 (some "tok1") (some 100) "")).state 10 (.netError "x")
      = ⟨.ok "tok1",
         (getAccessToken ⟨"i", "s", "p", none, none, 0⟩ 7
           (.response 200 (some "tok1") (some 100) "")).state, false⟩
    ∧ (getAccessToken
        (getAccessToken ⟨"i", "s", "p", none, none, 0⟩ 7
          (.response 200 (some "tok1") (some 100) "")).state 47 (.netError "x")).fetched
      = true := by
  have h4 := token_cache_policy.2.2.2 ⟨"i", "s", "p", none, none, 0⟩ 7 "tok1" ""
    (by decide) (by decide)
  exact ⟨token_cache_policy.1 ⟨"i", "s", "p", none, some "tok", 100⟩ 50 "tok" (.netError "x")
          rfl (by decide) (by decide),
         token_cache_policy.2.1 ⟨"i", "s", "p", none, none, 0⟩ 0 (.netError "x") (by decide),
         token_cache_policy.2.2.1 ⟨"i", "s", "p", none, none, 0⟩ 7 100 (some "tok1") ""
          (by decide),
         h4.1,
         h4.2.1 10 (.netError "x") (by decide),
         h4.2.2 47 (.netError "x") (by decide)⟩

/-- C3: on the fetch path, any non-200 token response (parsed or not) raises
PipedreamAuthError carrying the status and the body text; a 200 response
whose body lacks the access_token field raises PipedreamAuthError rather than
returning; the getter returns without raising only for a 200 response with a
present non-empty access_token, and then it does return that token. -/
theorem token_auth_error_conditions :
    (∀ (st : ClientState) (now : Int) (s : Nat) (tok : Option String)
        (e : Option Int) (text : String),
      cacheHit st now = false → s ≠ 200 →
      (getAccessToken st now (.response s tok e text)).result
        = .error (.authBadStatus s text))
  ∧ (∀ (st : ClientState) (now : Int) (s : Nat) (text : String),
      cacheHit st now = false → s ≠ 200 →
      (getAccessToken st now (.malformedJson s text)).result
        = .error (.authBadStatus s text))
  ∧ (∀ (st : ClientState) (now : Int) (e : Option Int) (text : String),
      cacheHit st now = false →
      (getAccessToken st now (.response 200 none e text)).result
        = .error .authMissingToken)
  ∧ (∀ (st : ClientState) (now : Int) (f : TokenOutcome) (s : String),
      cacheHit st now = false → (getAccessToken st now f).result = .ok s →
      s ≠ "" ∧ ∃ e text, f = TokenOutcome.response 200 (some s) e text)
  ∧ (∀ (st : ClientState) (now : Int) (tok : String) (e : Option Int) (text : String),
      cacheHit st now = false → tok ≠ "" →
      (getAccessToken st now (.response 200 (some tok) e text)).result = .ok tok) := by
  refine ⟨?_, ?_, ?_, ?_, ?_⟩
  · intro st now s tok e text h hs
    rw [getAccessToken_not_hit _ _ _ h, fetchToken_non200 st now s tok e text hs]
  · intro st now s text h hs
    rw [getAccessToken_not_hit _ _ _ h, fetchToken_malformed_non200 st now s text hs]
  · intro st now e text h
    rw [getAccessToken_not_hit _ _ _ h, fetchToken_200_missing]
  · intro st now f s h hok
    rw [getAccessToken_not_hit _ _ _ h] at hok
    cases f with
    | netError m => simp [fetchToken] at hok
    | malformedJson s2 t =>
      by_cases h200 : s2 = 200 <;> simp [fetchToken, h200] at hok
    | response s2 tok e t =>
      by_cases h200 : s2 = 200
      · subst h200
        cases tok with
        | none => simp [fetchToken] at hok
        | some tk =>
          by_cases hemp : tk = ""
          · subst hemp; simp [fetchToken] at hok
          · rw [fetchToken_200_ok st now tk e t hemp] at hok
            have hts : tk = s := by simpa using hok
            subst hts
            exact ⟨hemp, e, t, rfl⟩
      · rw [fetchToken_non200 st now s2 tok e t h200] at hok
        simp at hok
  · intro st now tok e text h htok
    rw [getAccessToken_not_hit _ _ _ h, fetchToken_200_ok st now tok e text htok]

/-- Witness for token_auth_error_conditions on a fresh client: a 401 fetch, a
non-200 unparseable body, a 200 fetch without the token field, and a 200
fetch with access_token tok1. -/
theorem token_auth_error_conditions_witness :
    (getAccessToken ⟨"i", "s", "p", none, none, 0⟩ 0
        (.response 401 none none "denied")).result = .error (.authBadStatus 401 "denied")
    ∧ (getAccessToken ⟨"i", "s", "p", none, none, 0⟩ 0
        (.malformedJson 500 "oops")).result = .error (.authBadStatus 500 "oops")
    ∧ (getAccessToken ⟨"i", "s", "p", none, none, 0⟩ 0
        (.response 200 none (some 3600) "")).result = .error .authMissingToken
    ∧ (getAccessToken ⟨"i", "s", "p", none, none, 0⟩ 0
        (.response 200 (some "tok1") (some 3600) "")).result = .ok "tok1" :=
  ⟨token_auth_error_conditions.1 ⟨"i", "s", "p", none, none, 0⟩ 0 401 none none "denied"
     (by decide) (by decide),
   token_auth_error_conditions.2.1 ⟨"i", "s", "p", none, none, 0⟩ 0 500 "oops"
     (by decide) (by decide),
   token_auth_error_conditions.2.2.1 ⟨"i", "s", "p", none, none, 0⟩ 0 (some 3600) ""
     (by decide),
   token_auth_error_conditions.2.2.2.2 ⟨"i", "s", "p", none, none, 0⟩ 0 "tok1" (some 3600) ""
     (by decide) (by decide)⟩

/-- C7: an aiohttp.ClientError during token retrieval is wrapped into
PipedreamAuthError, an aiohttp.ClientError during an API request or a delete
request is wrapped into PipedreamApiError, and a JSON decode failure on a
success-status API response is reported as PipedreamApiError; no transport
exception reaches the caller raw. -/
theorem transport_errors_wrapped :
    (∀ (st : ClientState) (now : Int) (m : String),
      cacheHit st now = false →
      (getAccessToken st now (.netError m)).result = .error (.authNetwork m)
      ∧ PdError.isAuthError (.authNetwork m) = true)
  ∧ (∀ (m : String),
      requestHandler (.netError m) = .error (.apiNetwork m)
      ∧ PdError.isApiError (.apiNetwork m) = true)
  ∧ (∀ (m : String),
      deleteResponseHandler (.netError m) = .error (.apiNetwork m))
  ∧ (∀ (s : Nat) (text : String), 200 ≤ s → s < 300 →
      requestHandler (.response s none text) = .error (.apiDecodeFail s text)
      ∧ PdError.isApiError (.apiDecodeFail s text) = true) := by
  refine ⟨?_, ?_, ?_, ?_⟩
  · intro st now m h
    rw [getAccessToken_not_hit _ _ _ h]
    exact ⟨rfl, rfl⟩
  · intro m; exact ⟨rfl, rfl⟩
  · intro m; rfl
  · intro s text _ _; exact ⟨rfl, rfl⟩

/-- Witness for transport_errors_wrapped: a network failure of a fresh token
fetch, of an API request and of a delete, and a decode failure on a 200
response. -/
theorem transport_errors_wrapped_witness :
    (getAccessToken ⟨"i", "s", "p", none, none, 0⟩ 0 (.netError "conn reset")).result
      = .error (.authNetwork "conn reset")
    ∧ requestHandler (.netError "conn reset") = .error (.apiNetwork "conn reset")
    ∧ deleteResponseHandler (.netError "conn reset") = .error (.apiNetwork "conn reset")
    ∧ requestHandler (.response 200 none "not json") = .error (.apiDecodeFail 200 "not json") :=
  ⟨(transport_errors_wrapped.1 ⟨"i", "s", "p", none, none, 0⟩ 0 "conn reset" (by decide)).1,
   (transport_errors_wrapped.2.1 "conn reset").1,
   transport_errors_wrapped.2.2.1 "conn reset",
   (transport_errors_wrapped.2.2.2 200 "not json" (by decide) (by decide)).1⟩

/-- C9: starting from a client whose cache holds no token, every string the
token getter ever returns over a trace of calls is non-empty and was the
access_token of some 200 token response of that trace; and after a call whose
fetch got a 200 response omitting access_token, the raised error is the
missing-token PipedreamAuthError, the cached token value is None even though
the stored expiry was advanced to now + expires_in - 60, so every subsequent
call performs a fetch instead of serving from cache. -/
theorem token_cache_provenance :
    (∀ (st : ClientState), st.accessToken = none →
      ∀ (calls : List TokenCall), ∀ out ∈ (runCalls st calls).1, ∀ (s : String),
        out = .ok s → s ≠ "" ∧ tokenFromTrace calls s)
  ∧ (∀ (st : ClientState) (now : Int) (e : Option Int) (text : String),
      cacheHit st now = false →
      (getAccessToken st now (.response 200 none e text)).result = .error .authMissingToken
      ∧ (getAccessToken st now (.response 200 none e text)).state.accessToken = none
      ∧ (getAccessToken st now (.response 200 none e text)).state.tokenExpiresAt
          = now + e.getD 3600 - 60
      ∧ ∀ (now2 : Int) (f : TokenOutcome),
          (getAccessToken (getAccessToken st now (.response 200 none e text)).state
            now2 f).fetched = true) := by
  constructor
  · intro st hnone calls out hout s hs
    have hP : ∀ s2, st.accessToken = some s2 → s2 ≠ "" → False := by
      intro s2 h2 _
      rw [hnone] at h2
      exact Option.noConfusion h2
    obtain ⟨hne, hor⟩ := runCalls_ok_source calls (fun _ => False) st hP out hout s hs
    exact ⟨hne, hor.resolve_left id⟩
  · intro st now e text h
    rw [getAccessToken_not_hit _ _ _ h, fetchToken_200_missing]
    refine ⟨rfl, rfl, rfl, ?_⟩
    intro now2 f
    have hnohit : cacheHit
        ({ st with accessToken := none,
                   tokenExpiresAt := now + e.getD 3600 - 60 }) now2 = false := by
      simp [cacheHit, truthyOptStr]
    rw [getAccessToken_not_hit _ _ _ hnohit]
    exact fetchToken_fetched _ _ _

/-- Witness for token_cache_provenance: a one-call trace on a fresh client
returning tok1 from a 200 response, and the state after a 200 response that
omitted access_token at time 5 with expires_in 100 (next call at time 12
fetches although 12 is below the advanced expiry 45). -/
theorem token_cache_provenance_witness :
    ("tok1" ≠ ""
      ∧ tokenFromTrace [⟨5, .response 200 (some "tok1") (some 100) ""⟩] "tok1")
    ∧ (getAccessToken ⟨"i", "s", "p", none, none, 0⟩ 5
        (.response 200 none (some 100) "")).result = .error .authMissingToken
    ∧ (getAccessToken ⟨"i", "s", "p", none, none, 0⟩ 5
        (.response 200 none (some 100) "")).state.accessToken = none
    ∧ (getAccessToken ⟨"i", "s", "p", none, none, 0⟩ 5
        (.response 200 none (some 100) "")).state.tokenExpiresAt = 5 + 100 - 60
    ∧ (getAccessToken
        (getAccessToken ⟨"i", "s", "p", none, none, 0⟩ 5
          (.response 200 none (some 100) "")).state 12 (.netError "x")).fetched = true := by
  have h2 := token_cache_provenance.2 ⟨"i", "s", "p", none, none, 0⟩ 5 (some 100) ""
    (by decide)
  refine ⟨?_, h2.1, h2.2.1, by simpa using h2.2.2.1, h2.2.2.2 12 (.netError "x")⟩
  exact token_cache_provenance.1 ⟨"i", "s", "p", none, none, 0⟩ rfl
    [⟨5, .response 200 (some "tok1") (some 100) ""⟩] (.ok "tok1")
    (by simp [runCalls, getAccessToken, cacheHit, truthyOptStr, fetchToken])
    "tok1" rfl

/-- C2 counterexample: a 204 response (whose empty body does not parse as
JSON) is not answered with an empty object by _request; it raises
PipedreamApiError from the decode branch instead, refuting the claimed
204-to-empty-object and raw_response behavior. -/
theorem request_dispatch_claim_fails :
    requestHandler (.response 204 none "") = .error (.apiDecodeFail 204 "")
    ∧ requestHandler (.response 204 none "") ≠ .ok (Json.obj []) := by
  refine ⟨rfl, fun h => ?_⟩
  simp [requestHandler] at h

/-- C2 amended: for a status in the 2xx range with a body that parses as
JSON, _request returns the parsed body (there is no 204 special case and no
raw_response wrapping); a body that fails to parse as JSON raises
PipedreamApiError carrying the status and body text, whatever the status; a
non-2xx status with a JSON object body raises PipedreamApiError embedding the
status code and the error.message field of the body when its error field is
an object carrying one, or the whole parsed body when the error field is
absent. -/
theorem request_dispatch_amended :
    (∀ (s : Nat) (body : Json) (text : String), 200 ≤ s → s < 300 →
      requestHandler (.response s (some body) text) = .ok body)
  ∧ (∀ (s : Nat) (text : String),
      requestHandler (.response s none text) = .error (.apiDecodeFail s text))
  ∧ (∀ (s : Nat) (fields efields : List (String × Json)) (m : Json) (text : String),
      ¬(200 ≤ s ∧ s < 300) →
      lookupField fields "error" = some (.obj efields) →
      lookupField efields "message" = some m →
      requestHandler (.response s (some (.obj fields)) text)
        = .error (.apiBadStatus s m))
  ∧ (∀ (s : Nat) (fields : List (String × Json)) (text : String),
      ¬(200 ≤ s ∧ s < 300) →
      lookupField fields "error" = none →
      requestHandler (.response s (some (.obj fields)) text)
        = .error (.apiBadStatus s (.obj fields))) := by
  refine ⟨?_, ?_, ?_, ?_⟩
  · intro s body text h1 h2
    simp [requestHandler, h1, h2]
  · intro s text; rfl
  · intro s fields efields m text hns he hm
    simp [requestHandler, hns, errorDetail, he, hm]
  · intro s fields text hns he
    simp [requestHandler, hns, errorDetail, he]

/-- Witness for request_dispatch_amended: a 200 response returning its JSON
body, and a 404 response with and without an error.message field. -/
theorem request_dispatch_amended_witness :
    requestHandler (.response 200 (some (Json.obj [("data", Json.null)])) "")
      = .ok (Json.obj [("data", Json.null)])
    ∧ requestHandler
        (.response 404 (some (Json.obj
          [("error", Json.obj [("message", Json.str "not found")])])) "")
      = .error (.apiBadStatus 404 (Json.str "not found"))
    ∧ requestHandler (.response 404 (some (Json.obj [("data", Json.null)])) "")
      = .error (.apiBadStatus 404 (Json.obj [("data", Json.null)])) :=
  ⟨request_dispatch_amended.1 200 (Json.obj [("data", Json.null)]) ""
     (by decide) (by decide),
   request_dispatch_amended.2.2.1 404 [("error", Json.obj [("message", Json.str "not found")])]
     [("message", Json.str "not found")] (Json.str "not found") ""
     (by decide) rfl rfl,
   request_dispatch_amended.2.2.2 404 [("data", Json.null)] "" (by decide) rfl⟩

/-- C6 counterexample: a non-204 delete response whose JSON body carries a
non-object error field makes the message extraction raise a raw Python
AttributeError, which is neither a PipedreamApiError nor caught by any except
clause of the delete methods, refuting that any non-204 status yields
ApiError. -/
theorem delete_dispatch_claim_fails :
    deleteResponseHandler
        (.response 400 (some (Json.obj [("error", Json.str "boom")])) "")
      = .error .attributeError
    ∧ PdError.isApiError .attributeError = false
    ∧ PdError.isAuthError .attributeError = false := by
  exact ⟨rfl, rfl, rfl⟩

/-- C6 amended: for each of the four delete operations, a 204 response yields
a successful no-value result whatever the body; any other status yields
PipedreamApiError with that status embedded whenever the body does not parse
as JSON (message = body text) or the JSON message extraction succeeds, i.e.
the body is an object whose error field, when present, is an object; when
that extraction hits a non-object, the failure escapes as an uncaught Python
AttributeError instead. -/
theorem delete_status_dispatch_amended :
    (∀ (body : Option Json) (text : String),
      deleteResponseHandler (.response 204 body text) = .ok ())
  ∧ (∀ (s : Nat) (text : String), s ≠ 204 →
      deleteResponseHandler (.response s none text)
        = .error (.apiDeleteErrorText s text))
  ∧ (∀ (s : Nat) (data d : Json) (text : String), s ≠ 204 →
      errorDetail data = some d →
      deleteResponseHandler (.response s (some data) text)
        = .error (.apiDeleteError s d)) := by
  refine ⟨?_, ?_, ?_⟩
  · intro body text; rfl
  · intro s text h
    simp [deleteResponseHandler, h]
  · intro s data d text h hd
    simp [deleteResponseHandler, h, hd]

/-- Witness for delete_status_dispatch_amended: a 204 success, a 404 with a
non-JSON body and a 404 with a JSON error.message body. -/
theorem delete_status_dispatch_amended_witness :
    deleteResponseHandler (.response 204 none "") = .ok ()
    ∧ deleteResponseHandler (.response 404 none "gone")
        = .error (.apiDeleteErrorText 404 "gone")
    ∧ deleteResponseHandler
        (.response 404 (some (Json.obj
          [("error", Json.obj [("message", Json.str "gone")])])) "")
        = .error (.apiDeleteError 404 (Json.str "gone")) :=
  ⟨delete_status_dispatch_amended.1 none "",
   delete_status_dispatch_amended.2.1 404 "gone" (by decide),
   delete_status_dispatch_amended.2.2 404
     (Json.obj [("error", Json.obj [("message", Json.str "gone")])])
     (Json.str "gone") "" (by decide) rfl⟩

/-- C4: each resource method invoked with a missing (empty) required
identifier fails with the ValueError of the source (the ValidationError
equivalent) and returns no request descriptor, so zero network calls are
issued: the validation failure precedes any request construction. -/
theorem required_identifier_validation :
    (∀ (pid : String) (ic : Bool),
      getAccountById pid "" ic = .error (.valueError "account_id is required."))
  ∧ (∀ (pid : String),
      deleteAccountRequest pid "" = .error (.valueError "account_id is required."))
  ∧ (∀ (pid : String),
      deleteAccountsByAppRequest pid "" = .error (.valueError "app_id is required."))
  ∧ (∀ (pid : String),
      deleteExternalUserRequest pid "" = .error (.valueError "external_user_id is required."))
  ∧ (∀ (pid : String) (ao : Option (List String)) (sr er wu : Option String),
      createConnectToken pid "" ao sr er wu
        = .error (.valueError "external_user_id is required."))
  ∧ (∀ (pid : String) (l : Option Int) (cu : Option String),
      getDeployedTriggers pid "" l cu
        = .error (.valueError "external_user_id is required."))
  ∧ (∀ (pid : String),
      getComponentRequest pid "triggers" ""
        = .error (.valueError "component_key is required."))
  ∧ (∀ (pid : String),
      getComponentRequest pid "actions" ""
        = .error (.valueError "component_key is required."))
  ∧ (∀ (pid : String),
      getComponentRequest pid "components" ""
        = .error (.valueError "component_key is required."))
  ∧ (∀ (pid eu : String) (ig : Bool),
      deleteDeployedTriggerRequest pid "" eu ig
        = .error (.valueError "deployed_component_id and external_user_id are required."))
  ∧ (∀ (pid dc : String) (l : Option Int),
      getDeployedTriggerEvents pid dc "" l
        = .error (.valueError "deployed_component_id and external_user_id are required."))
  ∧ (∀ (pid eu : String) (props : List (String × Json)) (w wf d : Option String),
      deployTrigger pid "" eu props w wf d
        = .error (.valueError "trigger_key and external_user_id are required.")) := by
  refine ⟨?_, ?_, ?_, ?_, ?_, ?_, ?_, ?_, ?_, ?_, ?_, ?_⟩
  · intro pid ic; rfl
  · intro pid; rfl
  · intro pid; rfl
  · intro pid; rfl
  · intro pid ao sr er wu; rfl
  · intro pid l cu; rfl
  · intro pid; rfl
  · intro pid; rfl
  · intro pid; rfl
  · intro pid eu ig; simp [deleteDeployedTriggerRequest]
  · intro pid dc l; simp [getDeployedTriggerEvents]
  · intro pid eu props w wf d; simp [deployTrigger]

/-- C5: whenever deploy_trigger is called with both a truthy webhook_url and
a truthy workflow_id, it fails with a ValueError validation error and returns
no request descriptor, so no HTTP request is sent. -/
theorem deploy_trigger_exclusive_destinations :
    ∀ (pid tk eu : String) (props : List (String × Json)) (w wf d : Option String),
      truthyOptStr w = true → truthyOptStr wf = true →
      isValidationError (deployTrigger pid tk eu props w wf d) = true := by
  intro pid tk eu props w wf d hw hwf
  by_cases hreq : tk = "" ∨ eu = ""
  · simp [deployTrigger, hreq, isValidationError]
  · simp [deployTrigger, hreq, hw, hwf, isValidationError]

/-- Witness for deploy_trigger_exclusive_destinations: a fully supplied
deployment naming both destinations is rejected by validation. -/
theorem deploy_trigger_exclusive_destinations_witness :
    truthyOptStr (some "https://example.com/hook") = true
    ∧ truthyOptStr (some "p_abc") = true
    ∧ isValidationError (deployTrigger "proj" "gitlab-new-issue" "user-1" []
        (some "https://example.com/hook") (some "p_abc") none) = true :=
  ⟨by decide, by decide,
   deploy_trigger_exclusive_destinations "proj" "gitlab-new-issue" "user-1" []
     (some "https://example.com/hook") (some "p_abc") none (by decide) (by decide)⟩

/-- C8: constructing a client with an empty client_id, client_secret or
project_id raises ValueError as the first initialization effect, so no client
object exists; and any successfully constructed client has all three
credentials non-empty, stored as given, with an empty token cache. -/
theorem init_credentials_required :
    (∀ (cid cs pid : String) (env : Option String),
      cid = "" ∨ cs = "" ∨ pid = "" →
      initClient cid cs pid env
        = .error (.valueError "client_id, client_secret, and project_id are required."))
  ∧ (∀ (cid cs pid : String) (env : Option String) (st : ClientState),
      initClient cid cs pid env = .ok st →
      cid ≠ "" ∧ cs ≠ "" ∧ pid ≠ ""
      ∧ st.clientId = cid ∧ st.clientSecret = cs ∧ st.projectId = pid
      ∧ st.environment = env ∧ st.accessToken = none ∧ st.tokenExpiresAt = 0) := by
  constructor
  · intro cid cs pid env h
    simp [initClient, h]
  · intro cid cs pid env st hok
    by_cases h : cid = "" ∨ cs = "" ∨ pid = ""
    · rw [initClient, if_pos h] at hok
      exact Except.noConfusion hok
    · rw [initClient, if_neg h] at hok
      push_neg at h
      obtain ⟨h1, h2, h3⟩ := h
      have hst : st = { clientId := cid, clientSecret := cs, projectId := pid,
                        environment := env, accessToken := none, tokenExpiresAt := 0 } := by
        cases hok
        rfl
      subst hst
      exact ⟨h1, h2, h3, rfl, rfl, rfl, rfl, rfl, rfl⟩

/-- Witness for init_credentials_required: an empty client_id is rejected,
and a fully supplied construction yields the expected client state. -/
theorem init_credentials_required_witness :
    initClient "" "sec" "proj" none
      = .error (.valueError "client_id, client_secret, and project_id are required.")
    ∧ ("cid" ≠ "" ∧ "sec" ≠ "" ∧ "proj" ≠ ""
       ∧ ({ clientId := "cid", clientSecret := "sec", projectId := "proj",
            environment := none, accessToken := none,
            tokenExpiresAt := 0 } : ClientState).clientId = "cid"
       ∧ ({ clientId := "cid", clientSecret := "sec", projectId := "proj",
            environment := none, accessToken := none,
            tokenExpiresAt := 0 } : ClientState).clientSecret = "sec"
       ∧ ({ clientId := "cid", clientSecret := "sec", projectId := "proj",
            environment := none, accessToken := none,
            tokenExpiresAt := 0 } : ClientState).projectId = "proj"
       ∧ ({ clientId := "cid", clientSecret := "sec", projectId := "proj",
            environment := none, accessToken := none,
            tokenExpiresAt := 0 } : ClientState).environment = none
       ∧ ({ clientId := "cid", clientSecret := "sec", projectId := "proj",
            environment := none, accessToken := none,
            tokenExpiresAt := 0 } : ClientState).accessToken = none
       ∧ ({ clientId := "cid", clientSecret := "sec", projectId := "proj",
            environment := none, accessToken := none,
            tokenExpiresAt := 0 } : ClientState).tokenExpiresAt = 0) :=
  ⟨init_credentials_required.1 "" "sec" "proj" none (Or.inl rfl),
   init_credentials_required.2 "cid" "sec" "proj" none
     { clientId := "cid", clientSecret := "sec", projectId := "proj",
       environment := none, accessToken := none, tokenExpiresAt := 0 } rfl⟩

theorem mem_optParamStr {key k : String} {v : PVal} {o : Option String}
    (h : (k, v) ∈ optParamStr key o) : k = key := by
  cases o with
  | none => simp [optParamStr] at h
  | some s =>
    by_cases hs : s = ""
    · simp [optParamStr, hs] at h
    · simp [optParamStr, hs] at h
      exact h.1

theorem mem_optParamInt {key k : String} {v : PVal} {o : Option Int}
    (h : (k, v) ∈ optParamInt key o) : k = key := by
  cases o with
  | none => simp [optParamInt] at h
  | some n =>
    by_cases hn : n = 0
    · simp [optParamInt, hn] at h
    · simp [optParamInt, hn] at h
      exact h.1

/-- C10 counterexample: get_deployed_trigger_events is a listing method whose
limit is guarded by an is-not-None test, so supplying the falsy limit 0 sends
a limit=0 query parameter and produces a different request from omitting the
parameter, refuting the claim for every listing method. -/
theorem listing_falsy_param_claim_fails :
    getDeployedTriggerEvents "proj" "dc_1" "user-1" (some 0)
      = .ok { method := "GET", path := "connect/proj/deployed-triggers/dc_1/events",
              params := [("external_user_id", PVal.s "user-1"), ("limit", PVal.i 0)],
              jsonBody := none }
    ∧ getDeployedTriggerEvents "proj" "dc_1" "user-1" none
      = .ok { method := "GET", path := "connect/proj/deployed-triggers/dc_1/events",
              params := [("external_user_id", PVal.s "user-1")],
              jsonBody := none }
    ∧ getDeployedTriggerEvents "proj" "dc_1" "user-1" (some 0)
      ≠ getDeployedTriggerEvents "proj" "dc_1" "user-1" none := by
  refine ⟨rfl, rfl, fun h => ?_⟩
  have hp := congrArg
    (fun x : Except PdError RequestDescriptor =>
      match x with
      | .ok r => r.params
      | .error _ => []) h
  simp [getDeployedTriggerEvents] at hp

/-- C10 amended: in the listing methods get_accounts, get_components and
get_deployed_triggers, supplying a falsy optional parameter (limit 0, empty
cursor or filter string, include_credentials False) produces exactly the same
request as omitting it, falsy values being dropped from the query; the
exception is get_deployed_trigger_events, which drops its limit only when it
is None and so sends limit=0 (see the counterexample). -/
theorem listing_falsy_params_dropped :
    (∀ (pid : String) (o e : Option String) (ic : Bool) (l : Option Int) (cu : Option String),
      getAccounts pid (some "") o e ic l cu = getAccounts pid none o e ic l cu)
  ∧ (∀ (pid : String) (a e : Option String) (ic : Bool) (l : Option Int) (cu : Option String),
      getAccounts pid a (some "") e ic l cu = getAccounts pid a none e ic l cu)
  ∧ (∀ (pid : String) (a o : Option String) (ic : Bool) (l : Option Int) (cu : Option String),
      getAccounts pid a o (some "") ic l cu = getAccounts pid a o none ic l cu)
  ∧ (∀ (pid : String) (a o e : Option String) (ic : Bool) (cu : Option String),
      getAccounts pid a o e ic (some 0) cu = getAccounts pid a o e ic none cu)
  ∧ (∀ (pid : String) (a o e : Option String) (ic : Bool) (l : Option Int),
      getAccounts pid a o e ic l (some "") = getAccounts pid a o e ic l none)
  ∧ (∀ (pid : String) (a o e : Option String) (l : Option Int) (cu : Option String)
        (r : RequestDescriptor),
      getAccounts pid a o e false l cu = .ok r →
      ∀ (v : PVal), ("include_credentials", v) ∉ r.params)
  ∧ (∀ (pid ct : String) (q : Option String) (l : Option Int) (cu : Option String),
      getComponents pid ct (some "") q l cu = getComponents pid ct none q l cu)
  ∧ (∀ (pid ct : String) (a : Option String) (l : Option Int) (cu : Option String),
      getComponents pid ct a (some "") l cu = getComponents pid ct a none l cu)
  ∧ (∀ (pid ct : String) (a q : Option String) (cu : Option String),
      getComponents pid ct a q (some 0) cu = getComponents pid ct a q none cu)
  ∧ (∀ (pid ct : String) (a q : Option String) (l : Option Int),
      getComponents pid ct a q l (some "") = getComponents pid ct a q l none)
  ∧ (∀ (pid eu : String) (cu : Option String),
      getDeployedTriggers pid eu (some 0) cu = getDeployedTriggers pid eu none cu)
  ∧ (∀ (pid eu : String) (l : Option Int),
      getDeployedTriggers pid eu l (some "") = getDeployedTriggers pid eu l none) := by
  refine ⟨?_, ?_, ?_, ?_, ?_, ?_, ?_, ?_, ?_, ?_, ?_, ?_⟩
  · intro pid o e ic l cu; rfl
  · intro pid a e ic l cu; rfl
  · intro pid a o ic l cu; rfl
  · intro pid a o e ic cu; rfl
  · intro pid a o e ic l; rfl
  · intro pid a o e l cu r hok v hmem
    simp only [getAccounts, Except.ok.injEq] at hok
    subst hok
    simp [List.mem_append] at hmem
    rcases hmem with h | h | h | h | h
    · exact absurd (mem_optParamStr h) (by decide)
    · exact absurd (mem_optParamStr h) (by decide)
    · exact absurd (mem_optParamStr h) (by decide)
    · exact absurd (mem_optParamInt h) (by decide)
    · exact absurd (mem_optParamStr h) (by decide)
  · intro pid ct q l cu
    by_cases hct : ct ∈ validTypes <;> simp [getComponents, hct, optParamStr]
  · intro pid ct a l cu
    by_cases hct : ct ∈ validTypes <;> simp [getComponents, hct, optParamStr]
  · intro pid ct a q cu
    by_cases hct : ct ∈ validTypes <;> simp [getComponents, hct, optParamInt]
  · intro pid ct a q l
    by_cases hct : ct ∈ validTypes <;> simp [getComponents, hct, optParamStr]
  · intro pid eu cu
    by_cases heu : eu = "" <;> simp [getDeployedTriggers, heu, optParamInt]
  · intro pid eu l
    by_cases heu : eu = "" <;> simp [getDeployedTriggers, heu, optParamStr]

/-- Witness for listing_falsy_params_dropped: a get_accounts call with
include_credentials False carries no include_credentials query parameter. -/
theorem listing_falsy_params_dropped_witness :
    getAccounts "proj" none none none false none none
      = .ok { method := "GET", path := "connect/proj/accounts",
              params := [], jsonBody := none }
    ∧ ("include_credentials", PVal.s "true")
        ∉ ({ method := "GET", path := "connect/proj/accounts",
             params := [], jsonBody := none } : RequestDescriptor).params :=
  ⟨rfl,
   listing_falsy_params_dropped.2.2.2.2.2.1 "proj" none none none none none
     { method := "GET", path := "connect/proj/accounts",
       params := [], jsonBody := none } rfl (PVal.s "true")⟩

end Pipedream
